import Mathlib

/-!
Verification of the standalone proxy forwarding client
(package standaloneproxy, file proxy.go): the JSON response
interpreters for the two supported methods, the gas-estimate
decimal-to-hex round trip, the framed request/response exchange
with its reconnect logic, the Pre hook adapter, and a two-thread
interleaving model of the lazy-connect path.
-/

namespace StandaloneProxy

/-- Model of a parsed JSON document. The Go code inspects raw response
bytes with the jsonparser library; we model well-formed payloads as
parsed trees. Numbers are restricted to integer numerals, the only
numeric shape the interpreters and the claims exercise. -/
inductive Json where
  | null : Json
  | jbool (b : Bool) : Json
  | num (n : Int) : Json
  | str (s : String) : Json
  | arr (elems : List Json) : Json
  | obj (fields : List (String × Json)) : Json

/-- First binding of a key in an object field list (jsonparser.Get
returns the first occurrence of a key). -/
def jlookup : List (String × Json) → String → Option Json
  | [], _ => none
  | (k, v) :: rest, key => if k = key then some v else jlookup rest key

/-- Model of jsonparser.Get(data, key) on a well-formed document: a
missing key, or a non-object document, is jsonparser.NotExist together
with KeyPathNotFoundError (the only Get error shape possible on
well-formed input, so the early-return for other Get errors in
TraceTransaction never fires in this model). -/
def jget1 (j : Json) (key : String) : Option Json :=
  match j with
  | .obj fields => jlookup fields key
  | _ => none

/-- Model of jsonparser.Get(data, key1, key2). -/
def jget2 (j : Json) (key1 key2 : String) : Option Json :=
  match jget1 j key1 with
  | some v => jget1 v key2
  | none => none

mutual
/-- Raw value bytes that jsonparser.Get reports for a value, as a
string: string values are reported unquoted, every other value as its
JSON rendering. Used by handleEstimateGasError for its len(...) > 0
checks and its error messages. -/
def rawBytes : Json → String
  | .null => "null"
  | .jbool true => "true"
  | .jbool false => "false"
  | .num n => toString n
  | .str s => s
  | .arr es => "[" ++ rawElems es ++ "]"
  | .obj fs => "\x7b" ++ rawFields fs ++ "\x7d"

/-- Comma-separated rendering of array elements. -/
def rawElems : List Json → String
  | [] => ""
  | [j] => rawBytes j
  | j :: rest => rawBytes j ++ "," ++ rawElems rest

/-- Comma-separated rendering of object fields. -/
def rawFields : List (String × Json) → String
  | [] => ""
  | [(k, v)] => "\"" ++ k ++ "\":" ++ rawBytes v
  | (k, v) :: rest => "\"" ++ k ++ "\":" ++ rawBytes v ++ "," ++ rawFields rest
end

/-- Lower-case hexadecimal digit character, as produced by Go fmt %x. -/
def hexChar (d : Nat) : Char :=
  if d < 10 then Char.ofNat (48 + d) else Char.ofNat (87 + d)

/-- Value of a hexadecimal digit character (accepting both cases, as
the hex decoder of the result type does). -/
def hexVal (c : Char) : Option Nat :=
  if 48 ≤ c.toNat ∧ c.toNat ≤ 57 then some (c.toNat - 48)
  else if 97 ≤ c.toNat ∧ c.toNat ≤ 102 then some (c.toNat - 87)
  else if 65 ≤ c.toNat ∧ c.toNat ≤ 70 then some (c.toNat - 55)
  else none

/-- Big-endian base-16 digits of n, computed with explicit fuel so that
the definition is structural (and kernel-evaluable). With fuel f it is
correct for every n < 16 ^ f. -/
def toHexAux : Nat → Nat → List Nat
  | 0, _ => []
  | fuel + 1, n => if n < 16 then [n] else toHexAux fuel (n / 16) ++ [n % 16]

/-- Big-endian base-16 digits of n, without leading zeros ([0] for 0),
exactly the digit string Go fmt %x prints. 64 digits of fuel cover every
value below 2 ^ 256, in particular every int64 magnitude the code can
feed in. -/
def goHexDigits (n : Nat) : List Nat := toHexAux 64 n

/-- Character form of the Go %x rendering of a natural number. -/
def hexCharsOfNat (n : Nat) : List Char := (goHexDigits n).map hexChar

/-- Model of the Go expression fmt.Sprintf("0x%x", val) for an int64
val: "0x" followed by the lower-case hex digits of the magnitude, with
the sign (for negative val) printed between the prefix and the digits. -/
def goSprintfHex (v : Int) : String :=
  if v < 0 then String.mk ('0' :: 'x' :: '-' :: hexCharsOfNat v.natAbs)
  else String.mk ('0' :: 'x' :: hexCharsOfNat v.natAbs)

/-- Run of hexadecimal digit values, left to right. -/
def hexValList : List Char → Option (List Nat)
  | [] => some []
  | c :: cs =>
    match hexVal c with
    | none => none
    | some d =>
      match hexValList cs with
      | none => none
      | some ds => some (d :: ds)

/-- Accumulate base-16 digits into a value. -/
def hexFold (ds : List Nat) : Nat := ds.foldl (fun a d => a * 16 + d) 0

/-- Modelled from the spec: common.Uint256 (relayer2-base, not under
src/) is "the fixed-width unsigned integer result type"; its
UnmarshalJSON "decode[s] that numeral into the fixed-width unsigned
integer result type, failing with MalformedNumber on overflow or bad
format". The numeral must be 0x-prefixed, non-empty, all hex digits,
and its value must fit in 256 bits. -/
def uint256UnmarshalJSON (s : String) : Option Nat :=
  match s.data with
  | '0' :: 'x' :: c :: rest =>
    match hexValList (c :: rest) with
    | none => none
    | some ds =>
      let v := hexFold ds
      if v < 2 ^ 256 then some v else none
  | _ => none

/-- Modelled from the spec: response.CallFrame (relayer2-base, not under
src/) is "the structured representation of a single transaction
execution trace", a struct with typed fields; we model its
representative string field "type". -/
structure CallFrame where
  typ : Option String
  deriving DecidableEq

/-- Modelled from the spec plus Go encoding/json semantics:
json.Unmarshal into a *CallFrame succeeds on JSON null (leaving the
zero value) and on JSON objects whose known fields carry JSON values of
the right type (unknown fields are ignored); it fails on any other JSON
value and on a field type mismatch. Mirrors the Go convention that the
target struct is returned (possibly partially filled) alongside the
error. -/
def unmarshalCallFrame (j : Json) : CallFrame × Option String :=
  match j with
  | .null => (⟨none⟩, none)
  | .obj fields =>
    match jlookup fields "type" with
    | none => (⟨none⟩, none)
    | some (.str s) => (⟨some s⟩, none)
    | some _ => (⟨none⟩, some "json: cannot unmarshal value into CallFrame field")
  | _ => (⟨none⟩, some "json: cannot unmarshal value into CallFrame")

/-- One array element as the ArrayEach callback of TraceTransaction
treats it: kept exactly when json.Unmarshal into a fresh CallFrame
reports no error (the per-element error itself is assigned to a
variable that is never returned). -/
def decodeOk (j : Json) : Option CallFrame :=
  match unmarshalCallFrame j with
  | (f, none) => some f
  | (_, some _) => none

/-- Response interpretation of TraceTransaction (proxy.go lines
158-193), on the parsed response document, as the Go pair
(trace pointer, error): nil pointer is modeled as none. -/
def traceInterp (res : Json) : Option CallFrame × Option String :=
  match jget1 res "result" with
  | none =>
    match jget2 res "error" "message" with
    | some (.str m) => (none, some m)
    | _ => (none, some "internal rpc error")
  | some (Json.obj fields) =>
    let fe := unmarshalCallFrame (Json.obj fields)
    (some fe.1, fe.2)
  | some (Json.arr es) =>
    match es.filterMap decodeOk with
    | [t] => (some t, none)
    | _ => (none, some "unexpected response")
  | some _ => (none, some "failed to parse unexpected response")

/-- Model of strconv.ParseInt(string(result), 10, 64) applied to the
decimal numeral of an integer JSON number: succeeds exactly on values
representable in a signed 64-bit integer, that is on
-9223372036854775808 (-2 ^ 63) through 9223372036854775807
(2 ^ 63 - 1). -/
def parseInt64 (n : Int) : Option Int :=
  if -9223372036854775808 ≤ n ∧ n ≤ 9223372036854775807 then some n else none

/-- Fallback of handleEstimateGasError: error.message if present and
non-empty, else the generic unknown-error message. -/
def handleEstimateGasErrorMessage (res : Json) : Option Nat × Option String :=
  match jget2 res "error" "message" with
  | some v =>
    if (rawBytes v).length > 0 then (none, some ("engine error: " ++ rawBytes v))
    else (none, some "engine error: unknown error occurred")
  | none => (none, some "engine error: unknown error occurred")

/-- Error normalization of EstimateGas (proxy.go lines 240-252):
error.data if present and non-empty, else error.message if present and
non-empty, else a generic message. -/
def handleEstimateGasError (res : Json) : Option Nat × Option String :=
  match jget2 res "error" "data" with
  | some v =>
    if (rawBytes v).length > 0 then (none, some ("engine error: " ++ rawBytes v))
    else handleEstimateGasErrorMessage res
  | none => handleEstimateGasErrorMessage res

/-- Response interpretation of EstimateGas (proxy.go lines 220-238): a
numeric result is parsed as a signed 64-bit decimal integer, re-rendered
as a 0x-prefixed hexadecimal numeral, and decoded into the unsigned
256-bit result type; anything else goes to error normalization. -/
def parseEstimateGasResponse (res : Json) : Option Nat × Option String :=
  match jget1 res "result" with
  | some (Json.num n) =>
    match parseInt64 n with
    | none => (none, some "failed to parse result as integer")
    | some v =>
      match uint256UnmarshalJSON (goSprintfHex v) with
      | none => (none, some "failed to unmarshal result")
      | some u => (some u, none)
  | _ => handleEstimateGasError res

/-- Outcome of one socket write as the code classifies it: success,
failure satisfying errors.Is(err, syscall.EPIPE), or any other failure. -/
inductive WriteOutcome where
  | ok : WriteOutcome
  | epipe : WriteOutcome
  | fail (msg : String) : WriteOutcome
  deriving DecidableEq

/-- Environment of one reconnect call: whether os.Stat reports that the
configured address does not exist as a filesystem path, and the outcome
net.Dial would produce if called (socket ids are naturals). -/
structure ReconnEnv where
  statNotExists : Bool
  dial : Except String Nat

/-- Result of reconnect, with an explicit record of whether net.Dial was
reached. -/
structure ReconnResult where
  res : Except String Nat
  dialAttempted : Bool

/-- The generic unavailability message used by both reconnect failure
paths (proxy.go lines 257 and 261). -/
def unavailableMsg : String :=
  "socket connection to refiner is not available. Trying to reconnect. Please try again"

/-- Model of rpcClient.reconnect (proxy.go lines 254-266): first an
os.Stat on the configured address regardless of the transport kind; on
not-exist, fail without dialing; otherwise dial, failing with the same
generic message on a dial error. -/
def reconnect (network address : String) (env : ReconnEnv) : ReconnResult :=
  if env.statNotExists then ⟨.error unavailableMsg, false⟩
  else
    match env.dial with
    | .error _ => ⟨.error unavailableMsg, true⟩
    | .ok c => ⟨.ok c, true⟩

/-- Mutable state of the rpcClient that request reads and writes. -/
structure RCState where
  network : String
  address : String
  conn : Option Nat

/-- Environment of one request call: outcomes of the I/O steps, and the
environment of the k-th reconnect attempt of this call. The response is
already parsed (readBody yields the buffer the code returns, possibly
partial, together with the error of io.ReadFull). -/
structure ReqEnv where
  recon : Nat → ReconnEnv
  setDeadlineErr : Option String
  writeLen : WriteOutcome
  writeBody : WriteOutcome
  readLenErr : Option String
  readBody : Json × Option String

/-- Result of request as the Go pair (buffer, error), plus the number of
reconnect attempts made during the call and the connection left in the
client state. -/
structure ReqResult where
  result : Option Json
  err : Option String
  reconnects : Nat
  connAfter : Option Nat

/-- Body of request once a connection c is at hand; k is the number of
reconnect attempts already made in this call (proxy.go lines 276-304).
A broken-pipe failure of the 4-byte length-prefix write triggers one
reconnect, whose failure is surfaced instead of the write error; when
that reconnect succeeds the original write error is still returned and
the write is not retried. The frame-body write, the length read and the
body read never reconnect; the body read returns the allocated buffer
alongside any error. -/
def requestBody (c : Nat) (k : Nat) (rc : RCState) (env : ReqEnv) : ReqResult :=
  match env.setDeadlineErr with
  | some e => ⟨none, some e, k, some c⟩
  | none =>
    match env.writeLen with
    | .epipe =>
      match (reconnect rc.network rc.address (env.recon k)).res with
      | .error e => ⟨none, some e, k + 1, some c⟩
      | .ok c2 => ⟨none, some "broken pipe", k + 1, some c2⟩
    | .fail e => ⟨none, some e, k, some c⟩
    | .ok =>
      match env.writeBody with
      | .epipe => ⟨none, some "broken pipe", k, some c⟩
      | .fail e => ⟨none, some e, k, some c⟩
      | .ok =>
        match env.readLenErr with
        | some e => ⟨none, some e, k, some c⟩
        | none => ⟨some env.readBody.1, env.readBody.2, k, some c⟩

/-- Model of rpcClient.request (proxy.go lines 268-304): lazily connect
when no connection exists (returning the reconnect error without any
I/O on failure), then perform the framed exchange. The frame bytes req
are written to the socket; their content does not influence the control
flow, which is driven by the I/O outcomes in env. -/
def request (rc : RCState) (env : ReqEnv) (req : Json) : ReqResult :=
  match rc.conn with
  | none =>
    match (reconnect rc.network rc.address (env.recon 0)).res with
    | .error e => ⟨none, some e, 1, none⟩
    | .ok c => requestBody c 1 rc env
  | some c => requestBody c 0 rc env

/-- Modelled from the spec: engine.TransactionForCall (relayer2-base,
not under src/) is "a call-transaction object"; none of its fields
influence the proxy's control flow, it is only JSON-serialized into the
request frame. -/
structure TransactionForCall where
  payload : List (String × Json)

/-- Modelled from the spec: common.BN64 (relayer2-base, not under src/)
is a block number that is either one of the three symbolic tags
(earliest, latest, pending) or a concrete height. -/
inductive BN64 where
  | earliest : BN64
  | latest : BN64
  | pending : BN64
  | height (n : Nat) : BN64
  deriving DecidableEq

/-- Modelled from the spec: common.BlockNumberOrHash (relayer2-base, not
under src/) is "an optional block reference" carrying an optional block
number and an optional block hash; a hash-only reference has
blockNumber = none. -/
structure BlockNumberOrHash where
  blockNumber : Option BN64
  blockHash : Option Nat

/-- JSON encoding of a 256-bit hash argument (only ever serialized). -/
def jsonOfH256 (h : Nat) : Json := .str (String.mk ('0' :: 'x' :: hexCharsOfNat h))

/-- JSON encoding of a transaction argument (only ever serialized). -/
def jsonOfTx (tx : TransactionForCall) : Json := .obj tx.payload

/-- JSON encoding of a concrete block height (only ever serialized). -/
def jsonOfHeight (n : Nat) : Json := .str (String.mk ('0' :: 'x' :: hexCharsOfNat n))

/-- Model of buildRequest (proxy.go lines 306-324): the JSON-RPC
envelope with id 1 around the method name and the serialized
parameters. Serializing a model value never fails, so the EncodingError
path of the codec is not reachable in the model. -/
def buildRequest (method : String) (params : List Json) : Json :=
  .obj [("id", .num 1), ("jsonrpc", .str "2.0"), ("method", .str method), ("params", .arr params)]

/-- Runtime panics the modeled code can raise. -/
inductive PanicKind where
  | indexOutOfRange : PanicKind
  | nilPointerDereference : PanicKind
  deriving DecidableEq

/-- Model of rpcClient.TraceTransaction (proxy.go lines 147-194) as the
Go pair (trace pointer, error): build the frame, perform the exchange,
and interpret the response. -/
def clientTraceTransaction (rc : RCState) (h : Nat) (env : ReqEnv) :
    Option CallFrame × Option String :=
  let req := buildRequest "debug_traceTransaction" [jsonOfH256 h]
  let r := request rc env req
  match r.err with
  | some e => (none, some e)
  | none =>
    match r.result with
    | some res => traceInterp res
    | none => (none, none)

/-- Outcome of EstimateGas: a runtime panic, or the Go pair
(value pointer, error). -/
inductive EstOutcome where
  | panics (k : PanicKind) : EstOutcome
  | res (r : Option Nat) (e : Option String) : EstOutcome
  deriving DecidableEq

/-- Model of rpcClient.EstimateGas (proxy.go lines 196-218): the switch
on *number dereferences the pointer before anything else, so a nil
number is a nil-pointer-dereference panic; symbolic tags are resolved
to their textual convention; then the frame is built, exchanged and the
response parsed. -/
def clientEstimateGas (rc : RCState) (tx : TransactionForCall) (number : Option BN64)
    (env : ReqEnv) : EstOutcome :=
  match number with
  | none => .panics .nilPointerDereference
  | some n =>
    let blockParam : Json :=
      match n with
      | .earliest => .str "earliest"
      | .latest => .str "latest"
      | .pending => .str "pending"
      | .height m => jsonOfHeight m
    let req := buildRequest "eth_estimateGas" [jsonOfTx tx, blockParam]
    let r := request rc env req
    match r.err with
    | some e => .res none (some ("failed to send request: " ++ e))
    | none =>
      match r.result with
      | some b => .res (parseEstimateGasResponse b).1 (parseEstimateGasResponse b).2
      | none => .res none none

/-- Dynamic value of an argument in the untyped argument list of Pre,
classified by how the two type assertions of proxy.go see it. A typed
nil *BlockNumberOrHash passes the pointer assertion with a nil payload;
any value of another dynamic type, including an untyped nil, fails both
assertions and is modeled by other. -/
inductive GoVal where
  | h256 (h : Nat) : GoVal
  | tx (t : TransactionForCall) : GoVal
  | blockRefPtr (p : Option BlockNumberOrHash) : GoVal
  | other : GoVal

/-- The typed value Pre writes into the response slot on success. -/
inductive RespVal where
  | traceRes (f : Option CallFrame) : RespVal
  | gasRes (v : Option Nat) : RespVal
  deriving DecidableEq

/-- Outcome of Pre: a runtime panic, or the Go triple with the context
dropped (Pre returns its ctx argument unchanged on every path):
handled flag, error, and the value written to the response slot. -/
inductive PreOutcome where
  | panics (k : PanicKind) : PreOutcome
  | returns (handled : Bool) (err : Option String) (response : Option RespVal) : PreOutcome
  deriving DecidableEq

/-- Model of StandaloneProxy.Pre (proxy.go lines 77-117). For
debug_traceTransaction both the arity check and the hash type assertion
return handled = false with an invalid-params error. For
eth_estimateGas args[0] and args[1] are indexed without an arity check
(out-of-range panic on a too-short list), the two failed type
assertions return handled = true, and a nil block reference defaults to
the latest block. Any other method is not handled. -/
def Pre (rc : RCState) (name : String) (args : List GoVal) (env : ReqEnv) : PreOutcome :=
  if name = "debug_traceTransaction" then
    if args.length ≠ 1 then .returns false (some "invalid params") none
    else
      match args with
      | [GoVal.h256 h] =>
        match clientTraceTransaction rc h env with
        | (_, some e) => .returns true (some e) none
        | (res, none) => .returns true none (some (.traceRes res))
      | _ => .returns false (some "invalid params") none
  else if name = "eth_estimateGas" then
    match args with
    | [] => .panics .indexOutOfRange
    | a0 :: rest =>
      match a0 with
      | GoVal.tx t =>
        match rest with
        | [] => .panics .indexOutOfRange
        | a1 :: _ =>
          match a1 with
          | GoVal.blockRefPtr p =>
            let bnh : BlockNumberOrHash :=
              match p with
              | none => ⟨some .latest, none⟩
              | some b => b
            match clientEstimateGas rc t bnh.blockNumber env with
            | .panics k => .panics k
            | .res _ (some e) => .returns true (some e) none
            | .res r none => .returns true none (some (.gasRes r))
          | _ => .returns true (some "invalid params") none
      | _ => .returns true (some "invalid params") none
  else .returns false none none

/-- Program counter of one thread executing request (proxy.go lines
268-279 plus the locked exchange): the connection-existence check, the
pre-lock dial of reconnect, lock acquisition, the frame write and the
response read inside the critical section, the deferred unlock, and
completion. -/
inductive TPC where
  | start : TPC
  | dialing : TPC
  | locking : TPC
  | writing : TPC
  | reading : TPC
  | unlocking : TPC
  | done : TPC
  deriving DecidableEq

/-- Shared state of one rpcClient under two concurrent callers (threads
are Bool): the connection slot, a fresh-socket counter, the list of
sockets opened and never closed, the mutex owner, and both program
counters. -/
structure Cfg where
  conn : Option Nat
  nextSock : Nat
  openSocks : List Nat
  lockOwner : Option Bool
  pcA : TPC
  pcB : TPC
  deriving DecidableEq

/-- Program counter of thread t. -/
def pcOf (s : Cfg) (t : Bool) : TPC := if t then s.pcB else s.pcA

/-- Replace the program counter of thread t. -/
def setPc (s : Cfg) (t : Bool) (v : TPC) : Cfg :=
  if t then { s with pcB := v } else { s with pcA := v }

/-- Interleaving semantics of two threads running request concurrently.
The rc.conn == nil check and the resulting reconnect dial happen before
the mutex is acquired; reconnect stores the new socket without closing
the previous one; the write and read of the exchange happen between
acquiring and releasing the mutex. -/
inductive Step : Cfg → Cfg → Prop where
  | checkNil (s : Cfg) (t : Bool) :
      pcOf s t = .start → s.conn = none → Step s (setPc s t .dialing)
  | checkSome (s : Cfg) (t : Bool) (c : Nat) :
      pcOf s t = .start → s.conn = some c → Step s (setPc s t .locking)
  | dialOk (s : Cfg) (t : Bool) :
      pcOf s t = .dialing →
      Step s (setPc { s with
                      conn := some s.nextSock
                      nextSock := s.nextSock + 1
                      openSocks := s.nextSock :: s.openSocks } t .locking)
  | dialFail (s : Cfg) (t : Bool) :
      pcOf s t = .dialing → Step s (setPc s t .done)
  | acquire (s : Cfg) (t : Bool) :
      pcOf s t = .locking → s.lockOwner = none →
      Step s (setPc { s with lockOwner := some t } t .writing)
  | writeFrame (s : Cfg) (t : Bool) :
      pcOf s t = .writing → Step s (setPc s t .reading)
  | readFrame (s : Cfg) (t : Bool) :
      pcOf s t = .reading → Step s (setPc s t .unlocking)
  | release (s : Cfg) (t : Bool) :
      pcOf s t = .unlocking → Step s (setPc { s with lockOwner := none } t .done)

/-- Both threads about to call request on a fresh client: no connection,
no socket, lock free. -/
def initCfg : Cfg := ⟨none, 0, [], none, .start, .start⟩

/-- Configurations reachable from the fresh client by interleaving the
two threads. -/
inductive Reach : Cfg → Prop where
  | init : Reach initCfg
  | step (s s2 : Cfg) : Reach s → Step s s2 → Reach s2

/-- A thread is inside the on-wire exchange (writing its frame or
reading the response). -/
def inExchange (p : TPC) : Prop := p = TPC.writing ∨ p = TPC.reading

/-- The reachable configuration in which both threads passed the
pre-lock connection check concurrently and each dialed a socket: two
sockets are open at once, the first one orphaned but never closed. -/
def racedCfg : Cfg := ⟨some 1, 2, [1, 0], none, .locking, .locking⟩

/-- Reachable configuration with one thread holding the lock inside the
exchange, used to exhibit the mutual-exclusion property at a concrete
state. -/
def exchangingCfg : Cfg := ⟨some 0, 1, [0], some false, .writing, .start⟩

/-- Mutex discipline of the exchange: a thread whose program counter is
inside or just past the critical section owns the lock. -/
def lockInv (s : Cfg) : Prop :=
  ((s.pcA = .writing ∨ s.pcA = .reading ∨ s.pcA = .unlocking) → s.lockOwner = some false) ∧
  ((s.pcB = .writing ∨ s.pcB = .reading ∨ s.pcB = .unlocking) → s.lockOwner = some true)

/-- Whether the first argument has the dynamic type the hash type
assertion of the trace branch accepts. -/
def isH256 : GoVal → Bool
  | .h256 _ => true
  | _ => false

/-- Whether an argument has the dynamic type the transaction type
assertion of the gas branch accepts. -/
def isTx : GoVal → Bool
  | .tx _ => true
  | _ => false

/-- Whether the top-level result field of a response is a JSON object
whose decode into the trace shape fails: the one response shape on
which the trace interpreter returns a non-nil trace pointer together
with a non-nil error. -/
def resultIsFailingObj (res : Json) : Bool :=
  match jget1 res "result" with
  | some (Json.obj fields) => (unmarshalCallFrame (Json.obj fields)).2.isSome
  | _ => false

/-- Trace response whose result field is the given array. -/
def mkArrResp (es : List Json) : Json := Json.obj [("result", Json.arr es)]

/-- Gas-estimation response whose result field holds the decimal value
V, inside the usual JSON-RPC envelope. -/
def gasResp (V : Nat) : Json :=
  Json.obj [("id", Json.num 1), ("jsonrpc", Json.str "2.0"), ("result", Json.num (V : Int))]

/-- The response of the end-to-end gas-estimation scenario of the spec. -/
def respC6 : Json :=
  Json.obj [("id", Json.num 1), ("jsonrpc", Json.str "2.0"), ("result", Json.num 6712759)]

/-- Trace response whose result field is an object that fails to decode
into the trace shape (its "type" field is a number, not a string). -/
def resBoth : Json := Json.obj [("result", Json.obj [("type", Json.num 5)])]

/-- A quiet request environment: every I/O step succeeds and reconnects
would succeed. -/
def env0 : ReqEnv := ⟨fun _ => ⟨false, .ok 0⟩, none, .ok, .ok, none, (Json.null, none)⟩

/-- A client that has not connected yet. -/
def rc0 : RCState := ⟨"unix", "/tmp/relayer.sock", some 0⟩

/-- A client with an established connection, socket id 7. -/
def rcConnected : RCState := ⟨"unix", "/run/refiner.sock", some 7⟩

/-- Environment in which the write of the 4-byte length prefix fails
with a broken-pipe condition and the subsequent reconnect would
succeed with socket 42. -/
def envLenPipe : ReqEnv := ⟨fun _ => ⟨false, .ok 42⟩, none, .epipe, .ok, none, (Json.null, none)⟩

/-- Environment in which the length-prefix write succeeds but the write
of the frame body fails with a broken-pipe condition. -/
def envBodyPipe : ReqEnv := ⟨fun _ => ⟨false, .ok 42⟩, none, .ok, .epipe, none, (Json.null, none)⟩

/-- Environment in which both writes and the length read succeed but the
body read fails after a partial read. -/
def envReadErr : ReqEnv :=
  ⟨fun _ => ⟨false, .ok 0⟩, none, .ok, .ok, none, (Json.obj [], some "read timeout")⟩

/-- Every digit toHexAux produces is a base-16 digit. -/
theorem toHexAux_lt : ∀ (fuel n : Nat), ∀ d ∈ toHexAux fuel n, d < 16 := by
  intro fuel
  induction fuel with
  | zero => intro n d hd; simp [toHexAux] at hd
  | succ f ih =>
    intro n d hd
    rw [toHexAux] at hd
    by_cases h : n < 16
    · simp [h] at hd; omega
    · simp [h] at hd
      rcases hd with hd | hd
      · exact ih (n / 16) d hd
      · subst hd; exact Nat.mod_lt n (by norm_num)

/-- With positive fuel, toHexAux always produces at least one digit. -/
theorem toHexAux_ne_nil : ∀ (fuel n : Nat), 0 < fuel → toHexAux fuel n ≠ [] := by
  intro fuel n hf
  cases fuel with
  | zero => omega
  | succ f =>
    rw [toHexAux]
    by_cases h : n < 16
    · simp [h]
    · simp [h]

/-- Folding one more trailing digit multiplies the accumulated value by
the base. -/
theorem hexFold_append_one (l : List Nat) (d : Nat) :
    hexFold (l ++ [d]) = hexFold l * 16 + d := by
  simp [hexFold, List.foldl_append]

/-- toHexAux is a section of hexFold on values within the fuel bound. -/
theorem hexFold_toHexAux : ∀ (fuel n : Nat), n < 16 ^ fuel →
    hexFold (toHexAux fuel n) = n := by
  intro fuel
  induction fuel with
  | zero => intro n hn; interval_cases n; simp [toHexAux, hexFold]
  | succ f ih =>
    intro n hn
    rw [toHexAux]
    by_cases h : n < 16
    · simp [h, hexFold]
    · simp only [h, if_false]
      have hdiv : n / 16 < 16 ^ f := by
        rw [pow_succ] at hn
        exact Nat.div_lt_of_lt_mul (by omega)
      rw [hexFold_append_one, ih (n / 16) hdiv]
      omega

/-- hexVal inverts hexChar on base-16 digits. -/
theorem hexVal_hexChar : ∀ d, d < 16 → hexVal (hexChar d) = some d := by decide

/-- hexValList inverts the character rendering of a digit run. -/
theorem hexValList_map_hexChar : ∀ l : List Nat, (∀ d ∈ l, d < 16) →
    hexValList (l.map hexChar) = some l := by
  intro l
  induction l with
  | nil => intro _; rfl
  | cons d rest ih =>
    intro hl
    have hd : d < 16 := hl d (by simp)
    rw [List.map_cons, hexValList, hexVal_hexChar d hd, ih (fun x hx => hl x (by simp [hx]))]

/-- Decoding the 0x-prefixed hex rendering of any value below 2 ^ 256
into the unsigned 256-bit result type recovers the value. -/
theorem uint256_roundtrip (n : Nat) (hn : n < 2 ^ 256) :
    uint256UnmarshalJSON (String.mk ('0' :: 'x' :: hexCharsOfNat n)) = some n := by
  have hfuel : n < 16 ^ 64 := by
    have h16 : (16 : Nat) ^ 64 = 2 ^ 256 := by norm_num
    omega
  have hne : goHexDigits n ≠ [] := toHexAux_ne_nil 64 n (by norm_num)
  rcases hds : goHexDigits n with _ | ⟨d0, drest⟩
  · exact absurd hds hne
  · have hlt : ∀ d ∈ goHexDigits n, d < 16 := toHexAux_lt 64 n
    have hfold : hexFold (goHexDigits n) = n := hexFold_toHexAux 64 n hfuel
    rw [hds] at hlt hfold
    unfold uint256UnmarshalJSON
    simp only [hexCharsOfNat, hds, List.map_cons]
    rw [← List.map_cons, hexValList_map_hexChar (d0 :: drest) hlt]
    simp only [hfold]
    rw [if_pos (by omega)]

/-- The message fallback of the gas error normalizer always produces no
value and some error. -/
theorem handleEstimateGasErrorMessage_shape (res : Json) :
    (handleEstimateGasErrorMessage res).1 = none ∧
    (handleEstimateGasErrorMessage res).2.isSome := by
  unfold handleEstimateGasErrorMessage
  rcases h : jget2 res "error" "message" with _ | v
  · simp
  · by_cases hlen : (rawBytes v).length > 0 <;> simp [hlen]

/-- The gas error normalizer always produces no value and some error. -/
theorem handleEstimateGasError_shape (res : Json) :
    (handleEstimateGasError res).1 = none ∧ (handleEstimateGasError res).2.isSome := by
  unfold handleEstimateGasError
  rcases h : jget2 res "error" "data" with _ | v
  · exact handleEstimateGasErrorMessage_shape res
  · by_cases hlen : (rawBytes v).length > 0
    · simp [hlen]
    · simp only [hlen, if_false]
      exact handleEstimateGasErrorMessage_shape res

/-- A pair with no value and some error satisfies the exclusivity
equivalence. -/
theorem pair_exclusive (p : Option Nat × Option String) (h1 : p.1 = none)
    (h2 : p.2.isSome) : (p.1.isSome ↔ p.2 = none) := by
  rw [h1]
  constructor
  · intro hx; simp at hx
  · intro hy; rw [hy] at h2; simp at h2

/-- The locked exchange body always returns a buffer or an error. -/
theorem requestBody_shape (c k : Nat) (rc : RCState) (env : ReqEnv) :
    (requestBody c k rc env).result.isSome ∨ (requestBody c k rc env).err.isSome := by
  unfold requestBody
  rcases hd : env.setDeadlineErr with _ | e
  · rcases hw : env.writeLen with _ | _ | m
    · rcases hb : env.writeBody with _ | _ | m2
      · rcases hr : env.readLenErr with _ | e2
        · left; simp
        · right; simp
      · right; simp
      · right; simp
    · rcases hrec : (reconnect rc.network rc.address (env.recon k)).res with e2 | c2 <;>
        (right; simp [hrec])
    · right; simp
  · right; simp

/-- Every interleaving step preserves the mutex discipline. -/
theorem step_lockInv (s s2 : Cfg) (hs : lockInv s) (hstep : Step s s2) : lockInv s2 := by
  obtain ⟨hA, hB⟩ := hs
  cases hstep with
  | checkNil t hpc hconn => cases t <;> simp_all [lockInv, setPc, pcOf]
  | checkSome t c hpc hconn => cases t <;> simp_all [lockInv, setPc, pcOf]
  | dialOk t hpc => cases t <;> simp_all [lockInv, setPc, pcOf]
  | dialFail t hpc => cases t <;> simp_all [lockInv, setPc, pcOf]
  | acquire t hpc hlock => cases t <;> simp_all [lockInv, setPc, pcOf]
  | writeFrame t hpc => cases t <;> simp_all [lockInv, setPc, pcOf]
  | readFrame t hpc => cases t <;> simp_all [lockInv, setPc, pcOf]
  | release t hpc => cases t <;> simp_all [lockInv, setPc, pcOf]

/-- Every reachable configuration satisfies the mutex discipline. -/
theorem reach_lockInv (s : Cfg) (h : Reach s) : lockInv s := by
  induction h with
  | init => exact ⟨by simp [initCfg], by simp [initCfg]⟩
  | step s s2 hr hstep ih => exact step_lockInv s s2 ih hstep

/-- The racing interleaving of the pre-lock connection check is
reachable: both threads observe no connection, then both dial. -/
theorem reach_racedCfg : Reach racedCfg := by
  have r0 : Reach initCfg := Reach.init
  have r1 : Reach (⟨none, 0, [], none, .dialing, .start⟩ : Cfg) :=
    Reach.step _ _ r0 (Step.checkNil initCfg false rfl rfl)
  have r2 : Reach (⟨none, 0, [], none, .dialing, .dialing⟩ : Cfg) :=
    Reach.step _ _ r1 (Step.checkNil _ true rfl rfl)
  have r3 : Reach (⟨some 0, 1, [0], none, .locking, .dialing⟩ : Cfg) :=
    Reach.step _ _ r2 (Step.dialOk _ false rfl)
  have r4 : Reach (⟨some 1, 2, [1, 0], none, .locking, .locking⟩ : Cfg) :=
    Reach.step _ _ r3 (Step.dialOk _ true rfl)
  exact r4

/-- A configuration with one thread holding the lock inside the
exchange is reachable. -/
theorem reach_exchangingCfg : Reach exchangingCfg := by
  have r0 : Reach initCfg := Reach.init
  have r1 : Reach (⟨none, 0, [], none, .dialing, .start⟩ : Cfg) :=
    Reach.step _ _ r0 (Step.checkNil initCfg false rfl rfl)
  have r2 : Reach (⟨some 0, 1, [0], none, .locking, .start⟩ : Cfg) :=
    Reach.step _ _ r1 (Step.dialOk _ false rfl)
  have r3 : Reach (⟨some 0, 1, [0], some false, .writing, .start⟩ : Cfg) :=
    Reach.step _ _ r2 (Step.acquire _ false rfl rfl)
  exact r3

/-- C1 (amended): for debug_traceTransaction, both an arity mismatch
and a type mismatch on a single present argument make Pre fail with
the invalid-params error while reporting the call as not handled
(handled = false in both cases, not only for arity mismatches). -/
theorem c1_theorem : ∀ (rc : RCState) (env : ReqEnv) (args : List GoVal),
    (args.length ≠ 1 →
      Pre rc "debug_traceTransaction" args env = .returns false (some "invalid params") none) ∧
    (∀ a, args = [a] → isH256 a = false →
      Pre rc "debug_traceTransaction" args env = .returns false (some "invalid params") none) := by
  intro rc env args
  constructor
  · intro hlen
    simp [Pre, hlen]
  · intro a harg hna
    subst harg
    cases a with
    | h256 h => simp [isH256] at hna
    | tx t => simp [Pre]
    | blockRefPtr p => simp [Pre]
    | other => simp [Pre]

/-- C1 counterexample: a debug_traceTransaction call with exactly one
argument of the wrong dynamic type is reported as not handled
(handled = false), while the claim says such a call is reported as
handled-with-error (handled = true). -/
theorem c1_counterexample : Pre rc0 "debug_traceTransaction" [GoVal.other] env0
    = .returns false (some "invalid params") none := by decide

/-- C1 witness: the arity-mismatch conclusion of the amended theorem at
the empty argument list. -/
theorem c1_witness : Pre rc0 "debug_traceTransaction" [] env0
    = .returns false (some "invalid params") none :=
  (c1_theorem rc0 env0 []).1 (by decide)

/-- C2 (amended): on an established connection with a working deadline,
a broken-pipe failure of the 4-byte length-prefix write triggers
exactly one reconnect attempt and the call still returns an error even
when that reconnect succeeds (surfacing the write error, with the
fresh socket stored for the next call); any other outcome of the
length-prefix write, including success followed by a broken-pipe
failure of the frame-body write or any read failure, triggers no
reconnect. -/
theorem c2_theorem : ∀ (rc : RCState) (env : ReqEnv) (req : Json) (c : Nat),
    rc.conn = some c → env.setDeadlineErr = none →
    ((env.writeLen = .epipe →
       (request rc env req).reconnects = 1 ∧ (request rc env req).err.isSome) ∧
     (env.writeLen ≠ .epipe → (request rc env req).reconnects = 0) ∧
     (∀ c2 : Nat, env.writeLen = .epipe →
       (reconnect rc.network rc.address (env.recon 0)).res = .ok c2 →
       (request rc env req).err = some "broken pipe" ∧
       (request rc env req).connAfter = some c2)) := by
  intro rc env req c hconn hdl
  have hreq : request rc env req = requestBody c 0 rc env := by
    simp [request, hconn]
  refine ⟨?_, ?_, ?_⟩
  · intro hw
    rw [hreq]
    rcases hrec : (reconnect rc.network rc.address (env.recon 0)).res with e | c2 <;>
      simp [requestBody, hdl, hw, hrec]
  · intro hw
    rw [hreq]
    rcases hwl : env.writeLen with _ | _ | m
    · rcases hb : env.writeBody with _ | _ | m2
      · rcases hr : env.readLenErr with _ | e2 <;> simp [requestBody, hdl, hwl, hb, hr]
      · simp [requestBody, hdl, hwl, hb]
      · simp [requestBody, hdl, hwl, hb]
    · exact absurd hwl hw
    · simp [requestBody, hdl, hwl]
  · intro c2 hw hrec
    rw [hreq]
    simp [requestBody, hdl, hw, hrec]

/-- C2 counterexample: on an established connection, a broken-pipe
failure of the frame-body write (a write of the length-prefixed frame
failing with a broken-pipe condition) triggers zero reconnect
attempts, while the claim demands exactly one. -/
theorem c2_counterexample :
    (request rcConnected envBodyPipe Json.null).reconnects = 0 ∧
    (request rcConnected envBodyPipe Json.null).err = some "broken pipe" := by
  refine ⟨by decide, by decide⟩

/-- C2 witness: the amended theorem at an established connection whose
length-prefix write breaks the pipe and whose reconnect succeeds with
socket 42. -/
theorem c2_witness :
    (request rcConnected envLenPipe Json.null).reconnects = 1 ∧
    ((request rcConnected envLenPipe Json.null).err = some "broken pipe" ∧
     (request rcConnected envLenPipe Json.null).connAfter = some 42) :=
  ⟨((c2_theorem rcConnected envLenPipe Json.null 7 rfl rfl).1 rfl).1,
   (c2_theorem rcConnected envLenPipe Json.null 7 rfl rfl).2.2 42 rfl rfl⟩

/-- C3 (amended): on an array-shaped result the trace interpreter
succeeds exactly when the number of elements that decode into the
trace shape is one (returning that element), and fails with the
unexpected-response error exactly when that count differs from one;
the raw element count of the array is irrelevant. -/
theorem c3_theorem : ∀ es : List Json,
    ((es.filterMap decodeOk).length = 1 →
      traceInterp (mkArrResp es) = ((es.filterMap decodeOk).head?, none)) ∧
    ((es.filterMap decodeOk).length ≠ 1 →
      traceInterp (mkArrResp es) = (none, some "unexpected response")) := by
  intro es
  have hres : jget1 (mkArrResp es) "result" = some (Json.arr es) := rfl
  constructor
  · intro hlen
    rcases hl : es.filterMap decodeOk with _ | ⟨t, rest⟩
    · rw [hl] at hlen; simp at hlen
    · rcases rest with _ | ⟨u, rest2⟩
      · simp only [traceInterp, hres, hl, List.head?]
      · rw [hl] at hlen; simp at hlen
  · intro hlen
    rcases hl : es.filterMap decodeOk with _ | ⟨t, rest⟩
    · simp only [traceInterp, hres, hl]
    · rcases rest with _ | ⟨u, rest2⟩
      · rw [hl] at hlen; simp at hlen
      · simp only [traceInterp, hres, hl]

/-- C3 counterexample: a result array with two elements, of which
exactly one decodes into the trace shape, makes the trace interpreter
succeed, while the claim says every array with more than one element
fails with the unexpected-response-shape error. -/
theorem c3_counterexample :
    traceInterp (mkArrResp [Json.obj [], Json.num 5]) = (some ⟨none⟩, none) ∧
    ([Json.obj [], Json.num 5] : List Json).length = 2 := by
  refine ⟨by decide, rfl⟩

/-- C3 witness: the success conclusion of the amended theorem at a
one-element array whose element decodes. -/
theorem c3_witness : traceInterp (mkArrResp [Json.obj []]) = (some ⟨none⟩, none) :=
  (c3_theorem [Json.obj []]).1 (by decide)

/-- C4 (amended): no failure is swallowed and no operation returns
neither a result nor an error, but the returns are not always
exclusive: the trace interpreter returns a non-nil (partially decoded)
trace together with a non-nil error exactly when the result field is
an object whose decode fails, and the exchange's read path returns the
partially filled buffer together with the read error; the
gas-estimation interpreter is strictly exclusive. -/
theorem c4_theorem :
    (∀ res : Json, (traceInterp res).1.isSome ∨ (traceInterp res).2.isSome) ∧
    (∀ res : Json, (traceInterp res).1.isSome → (traceInterp res).2.isSome →
      resultIsFailingObj res = true) ∧
    (∀ res : Json,
      (parseEstimateGasResponse res).1.isSome ↔ (parseEstimateGasResponse res).2 = none) ∧
    (∀ (rc : RCState) (env : ReqEnv) (req : Json),
      (request rc env req).result.isSome ∨ (request rc env req).err.isSome) := by
  refine ⟨?_, ?_, ?_, ?_⟩
  · intro res
    rcases h : jget1 res "result" with _ | v
    · rcases h2 : jget2 res "error" "message" with _ | m
      · right; simp [traceInterp, h, h2]
      · cases m <;> (right; simp [traceInterp, h, h2])
    · cases v with
      | null => right; simp [traceInterp, h]
      | jbool b => right; simp [traceInterp, h]
      | num n => right; simp [traceInterp, h]
      | str s => right; simp [traceInterp, h]
      | arr es =>
        rcases hl : es.filterMap decodeOk with _ | ⟨t, rest⟩
        · right; simp [traceInterp, h, hl]
        · rcases rest with _ | ⟨u, rest2⟩
          · left; simp [traceInterp, h, hl]
          · right; simp [traceInterp, h, hl]
      | obj fields => left; simp [traceInterp, h]
  · intro res h1 h2
    unfold resultIsFailingObj
    rcases h : jget1 res "result" with _ | v
    · exfalso
      have ht : (traceInterp res).1 = none := by
        rcases h3 : jget2 res "error" "message" with _ | m
        · simp [traceInterp, h, h3]
        · cases m <;> simp [traceInterp, h, h3]
      rw [ht] at h1; simp at h1
    · cases v with
      | null =>
        exfalso
        rw [show (traceInterp res).1 = none by simp [traceInterp, h]] at h1; simp at h1
      | jbool b =>
        exfalso
        rw [show (traceInterp res).1 = none by simp [traceInterp, h]] at h1; simp at h1
      | num n =>
        exfalso
        rw [show (traceInterp res).1 = none by simp [traceInterp, h]] at h1; simp at h1
      | str s =>
        exfalso
        rw [show (traceInterp res).1 = none by simp [traceInterp, h]] at h1; simp at h1
      | arr es =>
        exfalso
        rcases hl : es.filterMap decodeOk with _ | ⟨t, rest⟩
        · rw [show (traceInterp res).1 = none by simp [traceInterp, h, hl]] at h1; simp at h1
        · rcases rest with _ | ⟨u, rest2⟩
          · rw [show (traceInterp res).2 = none by simp [traceInterp, h, hl]] at h2; simp at h2
          · rw [show (traceInterp res).1 = none by simp [traceInterp, h, hl]] at h1; simp at h1
      | obj fields =>
        have ht : (traceInterp res).2 = (unmarshalCallFrame (Json.obj fields)).2 := by
          simp [traceInterp, h]
        rw [ht] at h2
        simp only [h]
        exact h2
  · intro res
    rcases h : jget1 res "result" with _ | v
    · have heq : parseEstimateGasResponse res = handleEstimateGasError res := by
        unfold parseEstimateGasResponse; rw [h]
      rw [heq]
      exact pair_exclusive _ (handleEstimateGasError_shape res).1
        (handleEstimateGasError_shape res).2
    · cases v with
      | num n =>
        rcases hp : parseInt64 n with _ | w
        · have heq : parseEstimateGasResponse res
              = (none, some "failed to parse result as integer") := by
            simp only [parseEstimateGasResponse, h, hp]
          rw [heq]; simp
        · rcases hu : uint256UnmarshalJSON (goSprintfHex w) with _ | u
          · have heq : parseEstimateGasResponse res
                = (none, some "failed to unmarshal result") := by
              simp only [parseEstimateGasResponse, h, hp, hu]
            rw [heq]; simp
          · have heq : parseEstimateGasResponse res = (some u, none) := by
              simp only [parseEstimateGasResponse, h, hp, hu]
            rw [heq]; simp
      | null =>
        have heq : parseEstimateGasResponse res = handleEstimateGasError res := by
          unfold parseEstimateGasResponse; rw [h]
        rw [heq]
        exact pair_exclusive _ (handleEstimateGasError_shape res).1
          (handleEstimateGasError_shape res).2
      | jbool b =>
        have heq : parseEstimateGasResponse res = handleEstimateGasError res := by
          unfold parseEstimateGasResponse; rw [h]
        rw [heq]
        exact pair_exclusive _ (handleEstimateGasError_shape res).1
          (handleEstimateGasError_shape res).2
      | str s =>
        have heq : parseEstimateGasResponse res = handleEstimateGasError res := by
          unfold parseEstimateGasResponse; rw [h]
        rw [heq]
        exact pair_exclusive _ (handleEstimateGasError_shape res).1
          (handleEstimateGasError_shape res).2
      | arr es =>
        have heq : parseEstimateGasResponse res = handleEstimateGasError res := by
          unfold parseEstimateGasResponse; rw [h]
        rw [heq]
        exact pair_exclusive _ (handleEstimateGasError_shape res).1
          (handleEstimateGasError_shape res).2
      | obj fields =>
        have heq : parseEstimateGasResponse res = handleEstimateGasError res := by
          unfold parseEstimateGasResponse; rw [h]
        rw [heq]
        exact pair_exclusive _ (handleEstimateGasError_shape res).1
          (handleEstimateGasError_shape res).2
  · intro rc env req
    rcases hc : rc.conn with _ | c
    · rcases hrec : (reconnect rc.network rc.address (env.recon 0)).res with e | c0
      · right; simp [request, hc, hrec]
      · have heq : request rc env req = requestBody c0 1 rc env := by
          simp [request, hc, hrec]
        rw [heq]; exact requestBody_shape c0 1 rc env
    · have heq : request rc env req = requestBody c 0 rc env := by
        simp [request, hc]
      rw [heq]; exact requestBody_shape c 0 rc env

/-- C4 counterexample: when the body read fails after a partial read,
the exchange returns the allocated buffer and a non-nil error at the
same time, while the claim says no operation ever returns both a typed
result and a non-nil error. -/
theorem c4_counterexample :
    (request rcConnected envReadErr Json.null).result.isSome = true ∧
    (request rcConnected envReadErr Json.null).err = some "read timeout" := by
  refine ⟨by decide, by decide⟩

/-- C4 witness: the both-at-once characterization of the amended
theorem at a trace response whose result object fails to decode. -/
theorem c4_witness : resultIsFailingObj resBoth = true :=
  c4_theorem.2.1 resBoth (by decide) (by decide)

/-- C5 (amended): for every non-negative value representable in a
signed 64-bit integer, the decimal result decodes to the same value as
constructing the unsigned 256-bit result type directly from its
hexadecimal numeral; values at or above 2 ^ 63, although representable
in the unsigned result type, are rejected by the signed 64-bit decimal
parse. -/
theorem c5_theorem (V : Nat) (hV : V < 2 ^ 63) :
    parseEstimateGasResponse (gasResp V) = (some V, none) ∧
    uint256UnmarshalJSON (goSprintfHex (V : Int)) = some V := by
  have h256 : V < 2 ^ 256 := by
    have h2 : (2 : Nat) ^ 63 < 2 ^ 256 := by norm_num
    omega
  have hhex : uint256UnmarshalJSON (goSprintfHex (V : Int)) = some V := by
    unfold goSprintfHex
    rw [if_neg (by omega : ¬ (V : Int) < 0)]
    rw [show (V : Int).natAbs = V from Int.natAbs_ofNat V]
    exact uint256_roundtrip V h256
  refine ⟨?_, hhex⟩
  have hres : jget1 (gasResp V) "result" = some (Json.num (V : Int)) := rfl
  have hint : parseInt64 (V : Int) = some (V : Int) := by
    unfold parseInt64
    rw [if_pos]
    constructor <;> omega
  simp only [parseEstimateGasResponse, hres, hint, hhex]

/-- C5 counterexample: the decimal value 2 ^ 63 is representable in the
unsigned 256-bit result type, yet decoding fails with the
parse-as-integer error because the code parses the decimal through a
signed 64-bit parser. -/
theorem c5_counterexample :
    parseEstimateGasResponse (gasResp (2 ^ 63))
      = (none, some "failed to parse result as integer") ∧
    2 ^ 63 < 2 ^ 256 := by
  refine ⟨by decide, by norm_num⟩

/-- C5 witness: the amended theorem at the value 255. -/
theorem c5_witness : 255 < 2 ^ 63 ∧
    (parseEstimateGasResponse (gasResp 255) = (some 255, none) ∧
     uint256UnmarshalJSON (goSprintfHex ((255 : Nat) : Int)) = some 255) :=
  ⟨by norm_num, c5_theorem 255 (by norm_num)⟩

/-- C6 (amended): on the end-to-end scenario response the decoded
result is the unsigned integer 6712759, internally represented (and
re-derivable) as the hexadecimal numeral 0x666db7, with no mismatch
between the decimal and hex paths. -/
theorem c6_theorem :
    parseEstimateGasResponse respC6 = (some 6712759, none) ∧
    goSprintfHex 6712759 = "0x666db7" ∧
    uint256UnmarshalJSON "0x666db7" = some 6712759 := by
  refine ⟨by decide, by decide, by decide⟩

/-- C6 counterexample: the decoded result of the scenario response is
6712759, but its internal hexadecimal representation is not the
claimed numeral 0x6691b7 (which denotes 6721975). -/
theorem c6_counterexample :
    parseEstimateGasResponse respC6 = (some 6712759, none) ∧
    goSprintfHex 6712759 ≠ "0x6691b7" := by
  refine ⟨by decide, by decide⟩

/-- C7 (amended): frames of two requests never interleave, because a
thread that is writing or reading inside the exchange holds the mutex,
so at most one thread is in the exchange at any reachable
configuration; the at-most-one-open-socket part of the claim is
refuted separately, since the connection check and dial run before the
mutex is acquired. -/
theorem c7_theorem :
    (∀ (s : Cfg) (t : Bool), Reach s → inExchange (pcOf s t) → s.lockOwner = some t) ∧
    (∀ (s : Cfg) (t1 t2 : Bool), Reach s → inExchange (pcOf s t1) → inExchange (pcOf s t2) →
      t1 = t2) := by
  have hmain : ∀ (s : Cfg) (t : Bool), Reach s → inExchange (pcOf s t) →
      s.lockOwner = some t := by
    intro s t hs ht
    have hinv := reach_lockInv s hs
    cases t with
    | false =>
      refine hinv.1 ?_
      rcases ht with h | h
      · exact Or.inl h
      · exact Or.inr (Or.inl h)
    | true =>
      refine hinv.2 ?_
      rcases ht with h | h
      · exact Or.inl h
      · exact Or.inr (Or.inl h)
  refine ⟨hmain, ?_⟩
  intro s t1 t2 hs h1 h2
  have e1 := hmain s t1 hs h1
  have e2 := hmain s t2 hs h2
  rw [e1] at e2
  exact Option.some.inj e2

/-- C7 counterexample: a reachable interleaving in which both threads
pass the pre-lock connection-existence check and each dials a socket,
leaving two sockets open at once (the superseded one is never closed),
while the claim says no execution of request by two callers ever opens
two concurrent sockets. -/
theorem c7_counterexample : Reach racedCfg ∧ racedCfg.openSocks.length = 2 ∧
    racedCfg.conn = some 1 := ⟨reach_racedCfg, rfl, rfl⟩

/-- C7 witness: the mutual-exclusion conclusion of the amended theorem
at a reachable configuration with thread A inside the exchange. -/
theorem c7_witness : exchangingCfg.lockOwner = some false :=
  c7_theorem.1 exchangingCfg false reach_exchangingCfg (Or.inl rfl)

/-- C8 (amended): for eth_estimateGas, Pre panics with an out-of-range
index access on an empty argument list, and on a one-element list
whose only argument is of the transaction type (the second index is
accessed without an arity check); but a one-element list whose
argument has the wrong type returns the invalid-params error with
handled = true instead of panicking, because the failed type assertion
on the first argument returns before the second is indexed. -/
theorem c8_theorem : ∀ (rc : RCState) (env : ReqEnv),
    Pre rc "eth_estimateGas" [] env = .panics .indexOutOfRange ∧
    (∀ t : TransactionForCall,
      Pre rc "eth_estimateGas" [GoVal.tx t] env = .panics .indexOutOfRange) ∧
    (∀ a : GoVal, isTx a = false →
      Pre rc "eth_estimateGas" [a] env = .returns true (some "invalid params") none) := by
  intro rc env
  refine ⟨rfl, fun t => rfl, ?_⟩
  intro a ha
  cases a with
  | h256 h => rfl
  | tx t => simp [isTx] at ha
  | blockRefPtr p => rfl
  | other => rfl

/-- C8 counterexample: an eth_estimateGas call with one wrong-typed
argument (fewer than two elements) does not panic but returns the
invalid-params error, while the claim says every call with fewer than
two arguments panics with an out-of-range index access. -/
theorem c8_counterexample : Pre rc0 "eth_estimateGas" [GoVal.other] env0
    = .returns true (some "invalid params") none := by decide

/-- C8 witness: the wrong-type conclusion of the amended theorem at a
typed-nil block-reference argument. -/
theorem c8_witness : Pre rc0 "eth_estimateGas" [GoVal.blockRefPtr none] env0
    = .returns true (some "invalid params") none :=
  (c8_theorem rc0 env0).2.2 (GoVal.blockRefPtr none) (by decide)

/-- C9: EstimateGas called with a nil block-number pointer panics with
a nil-pointer dereference at the symbolic-tag switch instead of
returning an error, and this is exactly what happens when Pre receives
a non-nil block reference whose block-number field is nil (a hash-only
reference). -/
theorem c9_theorem : ∀ (rc : RCState) (tx : TransactionForCall) (hash : Option Nat)
    (env : ReqEnv),
    clientEstimateGas rc tx none env = .panics .nilPointerDereference ∧
    Pre rc "eth_estimateGas" [GoVal.tx tx, GoVal.blockRefPtr (some ⟨none, hash⟩)] env
      = .panics .nilPointerDereference := by
  intro rc tx hash env
  exact ⟨rfl, rfl⟩

/-- C10: for every configured transport kind, reconnect first requires
the configured address to exist as a filesystem path: whenever os.Stat
reports not-exist, it fails with the generic unavailability message
without attempting to dial, even when the address (such as a TCP
host:port) would be dialable. -/
theorem c10_theorem : ∀ (network address : String) (env : ReconnEnv),
    env.statNotExists = true →
    (reconnect network address env).res = .error unavailableMsg ∧
    (reconnect network address env).dialAttempted = false := by
  intro network address env h
  simp [reconnect, h]

/-- C10 witness: the theorem at a TCP transport whose host:port address
is not a filesystem path although dialing it would succeed. -/
theorem c10_witness :
    (reconnect "tcp" "10.0.0.1:8545" ⟨true, Except.ok 5⟩).res = .error unavailableMsg ∧
    (reconnect "tcp" "10.0.0.1:8545" ⟨true, Except.ok 5⟩).dialAttempted = false :=
  c10_theorem "tcp" "10.0.0.1:8545" ⟨true, Except.ok 5⟩ rfl

end StandaloneProxy
